import Mathlib

/-!
Verification of the face-processing core of `face-processing-service/app.py`
(class `FaceProcessor`) against its natural-language specification.

The pipeline is shallowly embedded: pure Python/numpy arithmetic becomes
exact rational arithmetic (`ℚ`); machine `uint8` pixel values become `ℕ`
(bounded by 255 through hypotheses); fallible steps return `Except String`.
External collaborators that the source merely calls (cv2.imdecode, the Haar
cascade `detectMultiScale`, cv2.resize, the ONNX session `run`,
`np.linalg.norm`, `math`/numpy square root, cv2.imencode) are opaque
parameters bundled in the `Externals` structure; the code of `app.py`
itself (base64 decode, face selection, alignment geometry, quality formula,
tensor preprocessing, L2 normalization, the orchestrator's control flow) is
translated directly.
-/

namespace FaceService

/-- A face bounding box `(x, y, w, h)` in pixel coordinates, as returned by
`detectMultiScale` (numpy int32 values, modelled as `ℤ`). -/
abbrev FaceBox := ℤ × ℤ × ℤ × ℤ

/-- A decoded image as produced by `cv2.imdecode`: dimensions plus a pixel
function.  Channel order is BGR (`0 = B`, `1 = G`, `2 = R`), 8-bit values. -/
structure RawImage where
  width : ℤ
  height : ℤ
  pix : ℕ → ℕ → Fin 3 → ℕ

/-- The 112×112 BGR face crop produced by `align_face` (`cv2.resize` target). -/
abbrev AlignedFace := Fin 112 → Fin 112 → Fin 3 → ℕ

/-- The model input tensor of shape (1, 3, 112, 112) built by
`preprocess_face`: batch index, channel (RGB), row, column. -/
abbrev Tensor := Fin 1 → Fin 3 → Fin 112 → Fin 112 → ℚ

/-! ### Base64 decoding (`base64.b64decode`, CPython, `validate=False`)

`process_image` line 263 calls `base64.b64decode(image_data)` on the raw
request string.  CPython with `validate=False` discards characters outside
the base-64 alphabet (keeping `=` padding), then decodes 4-character
quanta; a leftover partial quantum is a `binascii.Error`.  This is modelled
character-for-character below; in particular NO data-URI prefix stripping
happens before decoding, exactly as in the source. -/

/-- Value of a base-64 alphabet character (`A-Z a-z 0-9 + /`), `none` for
everything else.  Written over `Char.toNat` codepoints. -/
def b64val (c : Char) : Option ℕ :=
  let n := c.toNat
  if 65 ≤ n ∧ n ≤ 90 then some (n - 65)
  else if 97 ≤ n ∧ n ≤ 122 then some (n - 97 + 26)
  else if 48 ≤ n ∧ n ≤ 57 then some (n - 48 + 52)
  else if n = 43 then some 62
  else if n = 47 then some 63
  else none

/-- Characters retained by CPython's lax base-64 decoder: the alphabet and
the padding character `=` (codepoint 61). -/
def isB64OrPad (c : Char) : Bool := (b64val c).isSome || c.toNat == 61

/-- Decode complete 4-character base-64 quanta into bytes; `=` padding is
accepted only in the final quantum (the well-formed shapes CPython's
`binascii.a2b_base64` accepts for ordinary payloads). -/
def decodeQuads : List Char → Except String (List ℕ)
  | [] => Except.ok []
  | a :: b :: c :: d :: rest =>
    match b64val a, b64val b with
    | some va, some vb =>
      if c.toNat = 61 then
        if d.toNat = 61 ∧ rest = [] then Except.ok [va * 4 + vb / 16]
        else Except.error "Invalid base64-encoded string"
      else
        match b64val c with
        | some vc =>
          if d.toNat = 61 then
            if rest = [] then Except.ok [va * 4 + vb / 16, vb % 16 * 16 + vc / 4]
            else Except.error "Invalid base64-encoded string"
          else
            match b64val d with
            | some vd =>
              match decodeQuads rest with
              | Except.ok bs =>
                  Except.ok ([va * 4 + vb / 16, vb % 16 * 16 + vc / 4, vc % 4 * 64 + vd] ++ bs)
              | Except.error e => Except.error e
            | none => Except.error "Invalid base64-encoded string"
        | none => Except.error "Invalid base64-encoded string"
    | _, _ => Except.error "Invalid base64-encoded string"
  | _ => Except.error "Incorrect padding"

/-- `base64.b64decode(s)` with CPython's default lax behaviour: characters
outside the alphabet (and not `=`) are discarded, then the kept characters
must form whole quanta, which are decoded to bytes.  Fails (as the Python
call raises `binascii.Error`) on a leftover partial quantum. -/
def b64decode (s : String) : Except String (List ℕ) :=
  let kept := s.toList.filter (fun c => isB64OrPad c)
  if kept.length % 4 = 0 then decodeQuads kept else Except.error "Incorrect padding"

/-! ### Grayscale conversion, Laplacian and image statistics -/

/-- `cv2.cvtColor(·, COLOR_BGR2GRAY)` on one pixel: OpenCV's fixed-point
formula `(B*1868 + G*9617 + R*4899 + 2^13) >> 14` (coefficients summing to
`2^14`, i.e. 0.114/0.587/0.299 in fixed point). -/
def cvtGrayPix (b g r : ℕ) : ℕ := (1868 * b + 9617 * g + 4899 * r + 8192) / 16384

/-- Grayscale image of a decoded image (`detect_faces` line 122 converts
the full image before running the cascade). -/
def grayImage (img : RawImage) : ℕ → ℕ → ℕ :=
  fun i j => cvtGrayPix (img.pix i j 0) (img.pix i j 1) (img.pix i j 2)

/-- Grayscale of a 112×112 aligned face (`assess_face_quality` line 222). -/
def grayFace (face : AlignedFace) : Fin 112 → Fin 112 → ℕ :=
  fun i j => cvtGrayPix (face i j 0) (face i j 1) (face i j 2)

/-- Row/column index one step up/left with OpenCV's default
`BORDER_REFLECT_101` border (`-1 ↦ 1`), as used by `cv2.Laplacian`. -/
def reflPrev (i : Fin 112) : Fin 112 :=
  if i.val = 0 then ⟨1, by omega⟩ else ⟨i.val - 1, by omega⟩

/-- Row/column index one step down/right with `BORDER_REFLECT_101`
(`112 ↦ 110`). -/
def reflNext (i : Fin 112) : Fin 112 :=
  if h : i.val = 111 then ⟨110, by omega⟩ else ⟨i.val + 1, by omega⟩

/-- `cv2.Laplacian(gray, CV_64F)` with the default aperture: the 3×3 kernel
`[[0,1,0],[1,-4,1],[0,1,0]]`, reflect-101 border.  Exact on integer input,
so the `CV_64F` output is an integer. -/
def lapAt (g : Fin 112 → Fin 112 → ℕ) (i j : Fin 112) : ℤ :=
  (g (reflPrev i) j : ℤ) + g (reflNext i) j + g i (reflPrev j) + g i (reflNext j)
    - 4 * g i j

/-- Mean of a 112×112 array (`np.mean` / numpy `.var` inner mean). -/
def mean2q (f : Fin 112 → Fin 112 → ℚ) : ℚ :=
  (∑ i : Fin 112, ∑ j : Fin 112, f i j) / (112 * 112)

/-- Population variance of a 112×112 array (numpy `.var()`: mean of squared
deviations from the mean). -/
def var2q (f : Fin 112 → Fin 112 → ℚ) : ℚ :=
  mean2q (fun i j => (f i j - mean2q f) ^ 2)

/-- Sum of squared entries of a vector; the square of its L2 norm. -/
def sumSq (v : List ℚ) : ℚ := (v.map (fun a => a ^ 2)).sum

/-! ### External collaborators -/

/-- The library calls the source delegates to, modelled opaquely.  `resize`
is `cv2.resize` given the destination size, the source crop size and the
crop's pixels (it fails, as cv2 raises, e.g. on an empty crop);
`detectMultiScale` is the Haar cascade on the grayscale image (its result
may be an error, which `detect_faces` converts to an empty list); `norm` is
`np.linalg.norm`; `sqrtq` is the square root used by numpy's `.std()`. -/
structure Externals where
  imdecode : List ℕ → Option RawImage
  detectMultiScale : (ℕ → ℕ → ℕ) → Except String (List FaceBox)
  resize : ℤ × ℤ → ℤ → ℤ → (ℕ → ℕ → Fin 3 → ℕ) → Except String AlignedFace
  modelRun : Tensor → Except String (List ℚ)
  norm : List ℚ → ℚ
  sqrtq : ℚ → ℚ
  imencodeJpg : AlignedFace → List ℕ

/-! ### The FaceProcessor methods (app.py lines 111–330) -/

/-- `FaceProcessor.detect_faces` (lines 111–133): grayscale conversion,
cascade detection; any internal error degrades to an empty list. -/
def detect_faces (ext : Externals) (image : RawImage) : List FaceBox :=
  match ext.detectMultiScale (grayImage image) with
  | Except.error _ => []
  | Except.ok faces => faces

/-- The padded, clamped crop rectangle `(x1, y1, x2, y2)` computed by
`align_face` (lines 149–153).  `int(0.2 * min(w, h))` equals `min w h / 5`
for every value arising from an image dimension (float truncation of
`0.2 * m` agrees with `⌊m / 5⌋` for `0 ≤ m < 2^52`). -/
def alignRect (W H x y w h : ℤ) : ℤ × ℤ × ℤ × ℤ :=
  let padding := min w h / 5
  (max 0 (x - padding), max 0 (y - padding),
    min W (x + w + padding), min H (y + h + padding))

/-- The crop `image[y1:y2, x1:x2]` as a pixel function with origin
`(x1, y1)` (line 156; `x1, y1 ≥ 0` at every call site). -/
def cropAt (img : RawImage) (x1 y1 : ℤ) : ℕ → ℕ → Fin 3 → ℕ :=
  fun i j c => img.pix (y1.toNat + i) (x1.toNat + j) c

/-- `FaceProcessor.align_face` (lines 135–161): pad by 20% of the smaller
box side, clamp to the image, crop, and `cv2.resize` to 112×112. -/
def align_face (ext : Externals) (image : RawImage) (faceRect : FaceBox) :
    Except String AlignedFace :=
  let x := faceRect.1
  let y := faceRect.2.1
  let w := faceRect.2.2.1
  let h := faceRect.2.2.2
  let r := alignRect image.width image.height x y w h
  ext.resize (112, 112) (r.2.2.1 - r.1) (r.2.2.2 - r.2.1) (cropAt image r.1 r.2.1)

/-- Swap between BGR and RGB channel indices (`cv2.cvtColor BGR2RGB` and
its inverse): `c ↦ 2 - c`. -/
def flipCh (c : Fin 3) : Fin 3 := ⟨2 - c.val, by omega⟩

/-- `FaceProcessor.preprocess_face` (lines 163–190): BGR→RGB, `/255`,
`(x - 0.5)/0.5`, HWC→CHW transpose, batch axis. -/
def preprocess_face (face : AlignedFace) : Tensor :=
  fun _ c i j => ((face i j (flipCh c) : ℚ) / 255 - 0.5) / 0.5

/-- `FaceProcessor.get_embedding` (lines 192–210): run the model, divide by
the L2 norm of the raw output, drop the batch dimension.  Division is exact
rational division; the (unchecked) zero-norm case is studied separately
with the `npDiv` float model below, since `ℚ` has no NaN. -/
def get_embedding (ext : Externals) (faceInput : Tensor) : Except String (List ℚ) :=
  match ext.modelRun faceInput with
  | Except.error e => Except.error e
  | Except.ok embedding =>
      Except.ok (embedding.map (fun a => a / ext.norm embedding))

/-- `FaceProcessor.assess_face_quality` (lines 212–241): grayscale, then
`0.5 * min(lapVar/1000, 1) + 0.3 * (1 - |mean - 128|/128)
 + 0.2 * min(std/64, 1)` with `std = sqrt(var)` supplied by `ext.sqrtq`. -/
def assess_face_quality (ext : Externals) (face : AlignedFace) : ℚ :=
  let gray := grayFace face
  let laplacianVar := var2q (fun i j => (lapAt gray i j : ℚ))
  let brightness := mean2q (fun i j => (gray i j : ℚ))
  let contrast := ext.sqrtq (var2q (fun i j => (gray i j : ℚ)))
  let sharpnessScore := min (laplacianVar / 1000) 1
  let brightnessScore := 1 - |brightness - 128| / 128
  let contrastScore := min (contrast / 64) 1
  sharpnessScore * 0.5 + brightnessScore * 0.3 + contrastScore * 0.2

/-- `max(faces, key=lambda f: f[2] * f[3])` (line 281): Python's `max`
keeps the FIRST element whose key is maximal (a later element replaces the
current best only when strictly larger). -/
def area (b : FaceBox) : ℤ := b.2.2.1 * b.2.2.2

/-- Fold realizing Python's `max(f :: fs, key=area)`. -/
def pickLargest (f : FaceBox) (fs : List FaceBox) : FaceBox :=
  fs.foldl (fun best g => if area g > area best then g else best) f

/-- The payload of a successful result dict (lines 303–314). -/
structure DetectedInfo where
  embedding : List ℚ
  qualityScore : ℚ
  bbox : ℤ × ℤ × ℤ × ℤ
  imageSize : ℤ × ℤ
  faceCenter : ℚ × ℚ
  centerOffset : ℚ × ℚ
  boxRatio : ℚ
  faceImage : Option (List ℕ)
deriving DecidableEq

/-- `ProcessingResult`: the two dict shapes `process_image` can return —
`face_detected=True` with the detected payload, or `face_detected=False`
with an error string; both carry `processing_time`. -/
inductive ProcResult where
  | notDetected (error : String) (processingTime : ℚ)
  | detected (info : DetectedInfo) (processingTime : ℚ)
deriving DecidableEq

/-- The body of the `try:` block of `process_image` (lines 261–322), with
each fault surfacing as `Except.error`: decode the base64 payload, decode
the image ( `None` becomes the raised `ValueError("Failed to decode
image")`), detect; an empty detection list is the normal no-face outcome
(`ok none`); otherwise pick the largest box, align, score, preprocess,
embed, and assemble the detected payload with the auxiliary geometry of
lines 296–314. -/
def pipelineCore (ext : Externals) (imageData : String) (returnFaceImage : Bool) :
    Except String (Option DetectedInfo) :=
  match b64decode imageData with
  | Except.error e => Except.error e
  | Except.ok imageBytes =>
    match ext.imdecode imageBytes with
    | none => Except.error "Failed to decode image"
    | some image =>
      match detect_faces ext image with
      | [] => Except.ok none
      | f :: fs =>
        let largestFace := pickLargest f fs
        match align_face ext image largestFace with
        | Except.error e => Except.error e
        | Except.ok alignedFace =>
          let qualityScore := assess_face_quality ext alignedFace
          let faceInput := preprocess_face alignedFace
          match get_embedding ext faceInput with
          | Except.error e => Except.error e
          | Except.ok embedding =>
            let x := largestFace.1
            let y := largestFace.2.1
            let w := largestFace.2.2.1
            let h := largestFace.2.2.2
            let imgW := image.width
            let imgH := image.height
            let cx : ℚ := (x : ℚ) + (w : ℚ) / 2
            let cy : ℚ := (y : ℚ) + (h : ℚ) / 2
            let icx : ℚ := (imgW : ℚ) / 2
            let icy : ℚ := (imgH : ℚ) / 2
            let dx : ℚ := (cx - icx) / (imgW : ℚ)
            let dy : ℚ := (cy - icy) / (imgH : ℚ)
            let boxRatio : ℚ := ((w * h : ℤ) : ℚ) / ((imgW * imgH : ℤ) : ℚ)
            Except.ok (some
              { embedding := embedding
                qualityScore := qualityScore
                bbox := (x, y, w, h)
                imageSize := (imgW, imgH)
                faceCenter := (cx, cy)
                centerOffset := (dx, dy)
                boxRatio := boxRatio
                faceImage :=
                  if returnFaceImage then some (ext.imencodeJpg alignedFace) else none })

/-- `FaceProcessor.process_image` (lines 243–330).  The `try/except`
boundary: a pipeline fault becomes the `face_detected=False` dict carrying
`str(e)`; an empty detection list becomes the fixed no-face message; wall
clock instants at entry and at result construction are the `startTime` and
`endTime` parameters, so every branch reports `endTime - startTime`. -/
def process_image (ext : Externals) (imageData : String) (returnFaceImage : Bool)
    (startTime endTime : ℚ) : ProcResult :=
  match pipelineCore ext imageData returnFaceImage with
  | Except.error e => ProcResult.notDetected e (endTime - startTime)
  | Except.ok none => ProcResult.notDetected "No face detected in image" (endTime - startTime)
  | Except.ok (some info) => ProcResult.detected info (endTime - startTime)

/-- The `processing_time` field, present in both result shapes. -/
def ProcResult.ptime : ProcResult → ℚ
  | ProcResult.notDetected _ t => t
  | ProcResult.detected _ t => t

/-- The embedding, when the result is `detected`. -/
def ProcResult.embOpt : ProcResult → Option (List ℚ)
  | ProcResult.notDetected _ _ => none
  | ProcResult.detected d _ => some d.embedding

/-- The bounding box, when the result is `detected`. -/
def ProcResult.bboxOpt : ProcResult → Option (ℤ × ℤ × ℤ × ℤ)
  | ProcResult.notDetected _ _ => none
  | ProcResult.detected d _ => some d.bbox

/-- The quality score, when the result is `detected`. -/
def ProcResult.qualityOpt : ProcResult → Option ℚ
  | ProcResult.notDetected _ _ => none
  | ProcResult.detected d _ => some d.qualityScore

/-! ### Spec-side definitions (for refinement statements) -/

/-- The crop rectangle exactly as §4.2 of the spec words it: padding
`⌊0.2 × min(box.w, box.h)⌋`, box expanded by the padding on all four
sides, clamped to the image bounds. -/
def specAlignRect (W H x y w h : ℤ) : ℤ × ℤ × ℤ × ℤ :=
  let p := ⌊(0.2 : ℚ) * ((min w h : ℤ) : ℚ)⌋
  (max 0 (x - p), max 0 (y - p), min W (x + w + p), min H (y + h + p))

/-- The inverse chain the spec's round-trip property describes:
`x*0.5 + 0.5`, then `×255`, then RGB→BGR, then transpose CHW→HWC. -/
def unpreprocess (t : Tensor) : Fin 112 → Fin 112 → Fin 3 → ℚ :=
  fun i j c => (t 0 (flipCh c) i j * 0.5 + 0.5) * 255

/-! ### A fragment of IEEE-754/numpy float semantics for the zero-norm case

`ℚ` has no NaN, so the behaviour of `embedding / np.linalg.norm(embedding)`
when the norm is zero is modelled with an explicit value type: numpy float
division emits `0/0 = NaN` and `±x/0 = ±inf` together with a
`RuntimeWarning` — it does NOT raise. -/

/-- A numpy float64 value: finite, NaN, or a signed infinity. -/
inductive NpFloat where
  | num (q : ℚ)
  | nan
  | posInf
  | negInf
deriving DecidableEq

/-- numpy float division: finite quotient when the divisor is nonzero,
`NaN` for `0/0`, signed infinity for `±x/0`.  No exception is raised. -/
def npDiv (a b : ℚ) : NpFloat :=
  if b = 0 then
    if a = 0 then NpFloat.nan
    else if 0 < a then NpFloat.posInf
    else NpFloat.negInf
  else NpFloat.num (a / b)

/-- The normalization step of `get_embedding` (line 208) under numpy float
semantics: every entry divided by the given norm value. -/
def npNormalize (v : List ℚ) (n : ℚ) : List NpFloat := v.map (fun a => npDiv a n)

/-! ### Concrete fixtures used by witnesses -/

/-- A 2×2 all-black decoded image. -/
def imgTiny : RawImage := { width := 2, height := 2, pix := fun _ _ _ => 0 }

/-- A 100×100 all-black decoded image. -/
def imgBig : RawImage := { width := 100, height := 100, pix := fun _ _ _ => 0 }

/-- A uniform mid-gray aligned face. -/
def faceMid : AlignedFace := fun _ _ _ => 128

/-- A uniform black aligned face. -/
def faceZero : AlignedFace := fun _ _ _ => 0

/-- A concrete instantiation of the external collaborators: decoding always
yields `imgTiny`, the cascade reports one 2×2 box at the origin, resizing
yields `faceMid`, the frozen model returns the vector `[3, 4]` (whose L2
norm is the rational 5), the square root is the zero stub (its value is
always constrained by hypotheses where it matters). -/
def extW : Externals where
  imdecode := fun _ => some imgTiny
  detectMultiScale := fun _ => Except.ok [(0, 0, 2, 2)]
  resize := fun _ _ _ _ => Except.ok faceMid
  modelRun := fun _ => Except.ok [3, 4]
  norm := fun v => if v = [3, 4] then 5 else 1
  sqrtq := fun _ => 0
  imencodeJpg := fun _ => []

/-! ### Helper lemmas -/

/-- Decidable equality for `Except` results (componentwise). -/
instance {ε α : Type} [DecidableEq ε] [DecidableEq α] : DecidableEq (Except ε α) :=
  fun a b =>
    match a, b with
    | Except.error x, Except.error y =>
      if h : x = y then isTrue (by rw [h])
      else isFalse (by intro hc; cases hc; exact h rfl)
    | Except.ok x, Except.ok y =>
      if h : x = y then isTrue (by rw [h])
      else isFalse (by intro hc; cases hc; exact h rfl)
    | Except.error _, Except.ok _ => isFalse (by intro hc; cases hc)
    | Except.ok _, Except.error _ => isFalse (by intro hc; cases hc)

/-- Integer division by 5 is exactly Python's `int(0.2 * m)` on the values
arising here: the floor of `0.2 × m`. -/
theorem int_div5_floor (m : ℤ) : m / 5 = ⌊(0.2 : ℚ) * (m : ℚ)⌋ := by
  have h1 : (0.2 : ℚ) * (m : ℚ) = ((m : ℤ) : ℚ) / ((5 : ℕ) : ℚ) := by push_cast; ring
  rw [h1, Rat.floor_intCast_div_natCast]
  norm_num

/-- The source's clamp rectangle coincides with the spec's description. -/
theorem alignRect_eq_spec (W H x y w h : ℤ) :
    alignRect W H x y w h = specAlignRect W H x y w h := by
  simp only [alignRect, specAlignRect, int_div5_floor]

/-! ### C10 -/

/-- C10: for an in-bounds face box with positive sides, the padded clamped
region of `align_face` is non-empty (`x1 < x2` and `y1 < y2`), so the crop
and the 112×112 resize are well-defined. -/
theorem alignRect_nonempty (W H x y w h : ℤ) (hw : 0 < w) (hh : 0 < h)
    (hx : 0 ≤ x) (hxw : x + w ≤ W) (hy : 0 ≤ y) (hyh : y + h ≤ H) :
    (alignRect W H x y w h).1 < (alignRect W H x y w h).2.2.1 ∧
      (alignRect W H x y w h).2.1 < (alignRect W H x y w h).2.2.2 := by
  have hp : 0 ≤ min w h / 5 := by
    have := lt_min hw hh
    omega
  simp only [alignRect]
  constructor
  · have h1 : max 0 (x - min w h / 5) ≤ x := max_le hx (by omega)
    have h2 : x + w ≤ min W (x + w + min w h / 5) := le_min hxw (by omega)
    calc max 0 (x - min w h / 5) ≤ x := h1
      _ < x + w := by omega
      _ ≤ min W (x + w + min w h / 5) := h2
  · have h1 : max 0 (y - min w h / 5) ≤ y := max_le hy (by omega)
    have h2 : y + h ≤ min H (y + h + min w h / 5) := le_min hyh (by omega)
    calc max 0 (y - min w h / 5) ≤ y := h1
      _ < y + h := by omega
      _ ≤ min H (y + h + min w h / 5) := h2

/-- C10 witness: the in-bounds box (10, 10, 30, 30) of a 100×100 image. -/
theorem alignRect_nonempty_witness :
    (alignRect 100 100 10 10 30 30).1 < (alignRect 100 100 10 10 30 30).2.2.1 ∧
      (alignRect 100 100 10 10 30 30).2.1 < (alignRect 100 100 10 10 30 30).2.2.2 :=
  alignRect_nonempty 100 100 10 10 30 30 (by norm_num) (by norm_num) (by norm_num)
    (by norm_num) (by norm_num) (by norm_num)

/-! ### C5 -/

/-- C5: for a positive-sided in-bounds box, `align_face` resizes, to
exactly 112×112, the crop at the rectangle obtained by expanding the box by
`⌊0.2 × min(w, h)⌋` on all four sides and clamping to the image bounds —
the rectangle exactly as the spec words it (`specAlignRect`). -/
theorem align_face_matches_spec (ext : Externals) (image : RawImage)
    (x y w h x1 y1 x2 y2 : ℤ) (hw : 0 < w) (hh : 0 < h)
    (hx : 0 ≤ x) (hxw : x + w ≤ image.width) (hy : 0 ≤ y) (hyh : y + h ≤ image.height)
    (hrect : specAlignRect image.width image.height x y w h = (x1, y1, x2, y2)) :
    align_face ext image (x, y, w, h) =
      ext.resize (112, 112) (x2 - x1) (y2 - y1) (cropAt image x1 y1) := by
  simp only [align_face, alignRect_eq_spec, hrect]

/-- C5 witness: box (10, 10, 30, 30) in a 100×100 image; the padding is 6
and the clamped rectangle is (4, 4, 46, 46), a 42×42 crop. -/
theorem align_face_matches_spec_witness :
    align_face extW imgBig (10, 10, 30, 30) =
      extW.resize (112, 112) 42 42 (cropAt imgBig 4 4) :=
  align_face_matches_spec extW imgBig 10 10 30 30 4 4 46 46 (by norm_num) (by norm_num)
    (by norm_num) (by norm_num [imgBig]) (by norm_num) (by norm_num [imgBig])
    (by rw [← alignRect_eq_spec]; decide)

/-! ### C3 -/

/-- C3 (refuting the claim on the code): when the frozen model returns the
all-zero vector, the normalization `embedding / np.linalg.norm(embedding)`
of `get_embedding` silently produces a vector of NaNs under numpy float
semantics — it is a total computation, not a raised ArithmeticFault; no
zero-norm check exists in the source. -/
theorem zero_norm_embedding_yields_nan :
    npNormalize (List.replicate 128 0) 0 = List.replicate 128 NpFloat.nan ∧
      ∀ v n, (npNormalize v n).length = v.length := by
  constructor
  · simp [npNormalize, npDiv]
  · intro v n
    simp [npNormalize]

/-! ### C4 -/

/-- C4 (refuting the claim on the code): `process_image` performs no
data-URI prefix stripping; CPython's lax `b64decode` keeps the alphabet
characters of the prefix (only `:`, `;`, `,` are discarded), so a
prefixed payload decodes to different bytes than the bare payload. -/
theorem data_uri_prefix_corrupts_decode :
    b64decode "QUJD" = Except.ok [65, 66, 67] ∧
      b64decode "data:image/jpeg;base64,QUJD" ≠ b64decode "QUJD" := by
  constructor
  · decide
  · decide

/-! ### C9 -/

/-- C9: `process_image` is deterministic — same image data, same frozen
externals give identical embedding, bbox and quality score; the clock
instants influence only the reported processing time. -/
theorem process_image_deterministic (ext : Externals) (s : String) (ret : Bool)
    (t0 t1 u0 u1 : ℚ) :
    (process_image ext s ret t0 t1).embOpt = (process_image ext s ret u0 u1).embOpt ∧
      (process_image ext s ret t0 t1).bboxOpt = (process_image ext s ret u0 u1).bboxOpt ∧
      (process_image ext s ret t0 t1).qualityOpt =
        (process_image ext s ret u0 u1).qualityOpt := by
  unfold process_image
  cases hp : pipelineCore ext s ret with
  | error e =>
    simp [ProcResult.embOpt, ProcResult.bboxOpt, ProcResult.qualityOpt]
  | ok o =>
    cases o <;> simp [ProcResult.embOpt, ProcResult.bboxOpt, ProcResult.qualityOpt]

/-! ### C1 -/

/-- C1: the orchestrator boundary of `process_image` is total: the result
always carries the elapsed time, it is always one of the two result
shapes, and every fault raised inside the pipeline steps surfaces as a
`notDetected` result carrying exactly the fault's description. -/
theorem process_image_catches_all (ext : Externals) (s : String) (ret : Bool)
    (t0 t1 : ℚ) :
    (process_image ext s ret t0 t1).ptime = t1 - t0 ∧
      ((∃ e, process_image ext s ret t0 t1 = ProcResult.notDetected e (t1 - t0)) ∨
        (∃ d, process_image ext s ret t0 t1 = ProcResult.detected d (t1 - t0))) ∧
      (∀ e, pipelineCore ext s ret = Except.error e →
        process_image ext s ret t0 t1 = ProcResult.notDetected e (t1 - t0)) := by
  unfold process_image
  cases hp : pipelineCore ext s ret with
  | error e =>
    refine ⟨rfl, Or.inl ⟨e, rfl⟩, ?_⟩
    intro e2 he
    cases he
    rfl
  | ok o =>
    cases o with
    | none =>
      refine ⟨rfl, Or.inl ⟨"No face detected in image", rfl⟩, ?_⟩
      intro e2 he
      exact Except.noConfusion he
    | some d =>
      refine ⟨rfl, Or.inr ⟨d, rfl⟩, ?_⟩
      intro e2 he
      exact Except.noConfusion he

/-- C1 witness: the malformed base64 payload "QQ" (a partial quantum) makes
the decode step fault, and the fault's description is returned in a
`notDetected` result together with the elapsed time. -/
theorem process_image_catches_all_witness :
    process_image extW "QQ" false 0 1 = ProcResult.notDetected "Incorrect padding" (1 - 0) :=
  (process_image_catches_all extW "QQ" false 0 1).2.2 "Incorrect padding" (by decide)

/-! ### C7 -/

/-- The BGR↔RGB channel swap is an involution. -/
theorem flipCh_flipCh (c : Fin 3) : flipCh (flipCh c) = c := by
  fin_cases c <;> rfl

/-- C7: for uint8 input, `preprocess_face` produces values in [-1, 1] (in
the (1, 3, 112, 112) channel-first layout encoded by `Tensor`), and the
spec's inverse chain (`x*0.5 + 0.5`, `×255`, RGB→BGR, transpose back)
reconstructs the input pixel values exactly. -/
theorem preprocess_face_range_roundtrip (face : AlignedFace)
    (hpix : ∀ i j c, face i j c ≤ 255) :
    (∀ b c i j, -1 ≤ preprocess_face face b c i j ∧ preprocess_face face b c i j ≤ 1) ∧
      ∀ i j c, unpreprocess (preprocess_face face) i j c = (face i j c : ℚ) := by
  constructor
  · intro b c i j
    have h0 : (0 : ℚ) ≤ (face i j (flipCh c) : ℚ) := by positivity
    have h255 : ((face i j (flipCh c) : ℚ)) ≤ 255 := by exact_mod_cast hpix i j (flipCh c)
    have hdiv0 : (0 : ℚ) ≤ (face i j (flipCh c) : ℚ) / 255 := by positivity
    have hdiv1 : (face i j (flipCh c) : ℚ) / 255 ≤ 1 :=
      (div_le_one (by norm_num)).mpr h255
    have hval : preprocess_face face b c i j =
        2 * ((face i j (flipCh c) : ℚ) / 255) - 1 := by
      unfold preprocess_face
      ring
    rw [hval]
    constructor <;> linarith
  · intro i j c
    unfold unpreprocess preprocess_face
    rw [flipCh_flipCh]
    ring

/-- C7 witness: the all-black face satisfies the pixel bound; the bounds
and the exact reconstruction hold at index (0, 0, 0). -/
theorem preprocess_face_range_roundtrip_witness :
    (-1 ≤ preprocess_face faceZero 0 0 0 0 ∧ preprocess_face faceZero 0 0 0 0 ≤ 1) ∧
      unpreprocess (preprocess_face faceZero) 0 0 0 = (faceZero 0 0 0 : ℚ) :=
  ⟨(preprocess_face_range_roundtrip faceZero (fun _ _ _ => by norm_num [faceZero])).1 0 0 0 0,
    (preprocess_face_range_roundtrip faceZero (fun _ _ _ => by norm_num [faceZero])).2 0 0 0⟩

/-! ### C8 -/

/-- Unfolding step of the selection fold. -/
theorem pickLargest_cons (f g : FaceBox) (gs : List FaceBox) :
    pickLargest f (g :: gs) = pickLargest (if area g > area f then g else f) gs := rfl

/-- C8: `max(faces, key=lambda f: f[2]*f[3])` selects an element of the
detection list of maximal area, and it is the FIRST such element in
detector-reported order: every earlier element has strictly smaller area. -/
theorem pickLargest_is_first_max (f : FaceBox) (fs : List FaceBox) :
    ∃ i : ℕ, ∃ hi : i < (f :: fs).length,
      (f :: fs).get ⟨i, hi⟩ = pickLargest f fs ∧
      (∀ j : ℕ, ∀ hj : j < (f :: fs).length,
        area ((f :: fs).get ⟨j, hj⟩) ≤ area (pickLargest f fs)) ∧
      (∀ j : ℕ, ∀ hj : j < (f :: fs).length, j < i →
        area ((f :: fs).get ⟨j, hj⟩) < area (pickLargest f fs)) := by
  induction fs generalizing f with
  | nil =>
    refine ⟨0, by norm_num, rfl, ?_, ?_⟩
    · intro j hj
      have hj0 : j = 0 := by simp only [List.length_cons, List.length_nil] at hj; omega
      subst hj0
      exact le_refl _
    · intro j hj hji
      omega
  | cons g gs ih =>
    rw [pickLargest_cons]
    by_cases hfg : area g > area f
    · rw [if_pos hfg]
      obtain ⟨i, hi, heq, hall, hfirst⟩ := ih g
      have hg_le : area g ≤ area (pickLargest g gs) := hall 0 (by simp)
      refine ⟨i + 1, by simp only [List.length_cons] at hi ⊢; omega, heq, ?_, ?_⟩
      · intro j hj
        cases j with
        | zero => exact le_of_lt (lt_of_lt_of_le hfg hg_le)
        | succ j1 =>
          exact hall j1 (by simp only [List.length_cons] at hj ⊢; omega)
      · intro j hj hji
        cases j with
        | zero => exact lt_of_lt_of_le hfg hg_le
        | succ j1 =>
          exact hfirst j1 (by simp only [List.length_cons] at hj ⊢; omega) (by omega)
    · rw [if_neg hfg]
      obtain ⟨i, hi, heq, hall, hfirst⟩ := ih f
      have hf_le : area f ≤ area (pickLargest f gs) := hall 0 (by simp)
      have hg_le : area g ≤ area (pickLargest f gs) := le_trans (not_lt.mp hfg) hf_le
      cases i with
      | zero =>
        refine ⟨0, by norm_num, heq, ?_, ?_⟩
        · intro j hj
          cases j with
          | zero => exact hf_le
          | succ j1 =>
            cases j1 with
            | zero => exact hg_le
            | succ j2 =>
              exact hall (j2 + 1) (by simp only [List.length_cons] at hj ⊢; omega)
        · intro j hj hji
          omega
      | succ iv =>
        refine ⟨iv + 2, by simp only [List.length_cons] at hi ⊢; omega, heq, ?_, ?_⟩
        · intro j hj
          cases j with
          | zero => exact hf_le
          | succ j1 =>
            cases j1 with
            | zero => exact hg_le
            | succ j2 =>
              exact hall (j2 + 1) (by simp only [List.length_cons] at hj ⊢; omega)
        · intro j hj hji
          cases j with
          | zero => exact hfirst 0 (by simp) (by omega)
          | succ j1 =>
            cases j1 with
            | zero => exact lt_of_le_of_lt (not_lt.mp hfg) (hfirst 0 (by simp) (by omega))
            | succ j2 =>
              exact hfirst (j2 + 1) (by simp only [List.length_cons] at hj ⊢; omega)
                (by omega)

/-! ### C2 -/

/-- Dividing every entry by `n` divides the sum of squares by `n ^ 2`. -/
theorem sumSq_map_div (v : List ℚ) (n : ℚ) (hn : n ≠ 0) :
    sumSq (v.map (fun a => a / n)) = sumSq v / n ^ 2 := by
  unfold sumSq
  induction v with
  | nil => simp
  | cons a v ih =>
    simp only [List.map_cons, List.sum_cons] at ih ⊢
    rw [ih]
    field_simp

/-- C2: when the base64 payload decodes, the image decodes, at least one
face is detected and the frozen model runs with a nonzero output norm,
`process_image` returns a `detected` result whose embedding is the raw
output divided by its L2 norm — and its squared L2 norm is exactly 1
(hence its norm is 1, well within the claimed 1e-5). -/
theorem process_image_detected_unit_norm (ext : Externals) (s : String) (ret : Bool)
    (t0 t1 : ℚ) (bs : List ℕ) (img : RawImage) (f : FaceBox) (fs : List FaceBox)
    (af : AlignedFace) (v : List ℚ)
    (h1 : b64decode s = Except.ok bs)
    (h2 : ext.imdecode bs = some img)
    (h3 : detect_faces ext img = f :: fs)
    (h4 : align_face ext img (pickLargest f fs) = Except.ok af)
    (h5 : ext.modelRun (preprocess_face af) = Except.ok v)
    (h6 : ext.norm v ≠ 0)
    (h7 : ext.norm v ^ 2 = sumSq v) :
    ∃ info, process_image ext s ret t0 t1 = ProcResult.detected info (t1 - t0) ∧
      info.embedding = v.map (fun a => a / ext.norm v) ∧
      sumSq info.embedding = 1 := by
  have hge : get_embedding ext (preprocess_face af) =
      Except.ok (v.map (fun a => a / ext.norm v)) := by
    unfold get_embedding
    rw [h5]
  have hnorm : sumSq (v.map (fun a => a / ext.norm v)) = 1 := by
    rw [sumSq_map_div v (ext.norm v) h6, ← h7]
    exact div_self (pow_ne_zero 2 h6)
  unfold process_image pipelineCore
  simp only [h1, h2, h3, h4, hge]
  exact ⟨_, rfl, rfl, hnorm⟩

/-- C2 witness: concrete externals whose frozen model returns `[3, 4]`
(norm 5); the embedding `[3/5, 4/5]` has squared norm exactly 1. -/
theorem process_image_detected_unit_norm_witness :
    ∃ info, process_image extW "" false 0 1 = ProcResult.detected info (1 - 0) ∧
      info.embedding = ([3, 4] : List ℚ).map (fun a => a / extW.norm [3, 4]) ∧
      sumSq info.embedding = 1 :=
  process_image_detected_unit_norm extW "" false 0 1 [] imgTiny (0, 0, 2, 2) [] faceMid
    [3, 4] (by decide) rfl rfl rfl rfl (by norm_num [extW]) (by norm_num [extW, sumSq])

/-! ### C6 -/

/-- Upper bound for the mean of a bounded 112×112 array. -/
theorem mean2q_le_of_le (f : Fin 112 → Fin 112 → ℚ) (c : ℚ) (hf : ∀ i j, f i j ≤ c) :
    mean2q f ≤ c := by
  unfold mean2q
  rw [div_le_iff₀ (by norm_num : (0 : ℚ) < 112 * 112)]
  calc (∑ i : Fin 112, ∑ j : Fin 112, f i j)
      ≤ ∑ _i : Fin 112, ∑ _j : Fin 112, c := by
        apply Finset.sum_le_sum
        intro i _
        apply Finset.sum_le_sum
        intro j _
        exact hf i j
    _ = c * (112 * 112) := by
        simp [Finset.sum_const, Finset.card_univ]
        ring

/-- The mean of a nonnegative 112×112 array is nonnegative. -/
theorem mean2q_nonneg (f : Fin 112 → Fin 112 → ℚ) (hf : ∀ i j, 0 ≤ f i j) :
    0 ≤ mean2q f := by
  unfold mean2q
  apply div_nonneg _ (by norm_num)
  apply Finset.sum_nonneg
  intro i _
  apply Finset.sum_nonneg
  intro j _
  exact hf i j

/-- A population variance is nonnegative. -/
theorem var2q_nonneg (f : Fin 112 → Fin 112 → ℚ) : 0 ≤ var2q f := by
  unfold var2q
  apply mean2q_nonneg
  intro i j
  positivity

/-- The grayscale value of a uint8 BGR pixel is at most 255. -/
theorem cvtGrayPix_le (b g r : ℕ) (hb : b ≤ 255) (hg : g ≤ 255) (hr : r ≤ 255) :
    cvtGrayPix b g r ≤ 255 := by
  unfold cvtGrayPix
  have hnum : 1868 * b + 9617 * g + 4899 * r + 8192 ≤ 4186112 := by omega
  calc (1868 * b + 9617 * g + 4899 * r + 8192) / 16384 ≤ 4186112 / 16384 :=
        Nat.div_le_div_right hnum
    _ = 255 := by norm_num

/-- Weighted combination of three [0, 1] scores stays in [0, 1]. -/
theorem weighted_score_range (s b c : ℚ) (hs0 : 0 ≤ s) (hs1 : s ≤ 1)
    (hb0 : 0 ≤ b) (hb1 : b ≤ 1) (hc0 : 0 ≤ c) (hc1 : c ≤ 1) :
    0 ≤ s * 0.5 + b * 0.3 + c * 0.2 ∧ s * 0.5 + b * 0.3 + c * 0.2 ≤ 1 := by
  constructor <;> nlinarith

/-- C6: `assess_face_quality` equals the spec's weighted formula
`0.5·min(lapVar/1000, 1) + 0.3·(1 − |mean − 128|/128) + 0.2·min(std/64, 1)`
over the grayscale conversion, and the score lies in [0, 1] for every
uint8 face (given only that the externally computed standard deviation is
nonnegative, as a square root is). -/
theorem assess_face_quality_formula_range (ext : Externals) (face : AlignedFace)
    (hpix : ∀ i j c, face i j c ≤ 255)
    (hsqrt : 0 ≤ ext.sqrtq (var2q (fun i j => (grayFace face i j : ℚ)))) :
    assess_face_quality ext face =
      0.5 * min (var2q (fun i j => (lapAt (grayFace face) i j : ℚ)) / 1000) 1
        + 0.3 * (1 - |mean2q (fun i j => (grayFace face i j : ℚ)) - 128| / 128)
        + 0.2 * min (ext.sqrtq (var2q (fun i j => (grayFace face i j : ℚ))) / 64) 1 ∧
      0 ≤ assess_face_quality ext face ∧ assess_face_quality ext face ≤ 1 := by
  have hgray : ∀ i j, ((grayFace face i j : ℚ)) ≤ 255 := by
    intro i j
    have : grayFace face i j ≤ 255 :=
      cvtGrayPix_le _ _ _ (hpix i j 0) (hpix i j 1) (hpix i j 2)
    exact_mod_cast this
  have hgray0 : ∀ i j, (0 : ℚ) ≤ ((grayFace face i j : ℚ)) := by
    intro i j
    positivity
  have hL : 0 ≤ var2q (fun i j => (lapAt (grayFace face) i j : ℚ)) := var2q_nonneg _
  have hM0 : 0 ≤ mean2q (fun i j => (grayFace face i j : ℚ)) := mean2q_nonneg _ hgray0
  have hM1 : mean2q (fun i j => (grayFace face i j : ℚ)) ≤ 255 := mean2q_le_of_le _ _ hgray
  have hs0 : 0 ≤ min (var2q (fun i j => (lapAt (grayFace face) i j : ℚ)) / 1000) 1 :=
    le_min (by positivity) (by norm_num)
  have hs1 : min (var2q (fun i j => (lapAt (grayFace face) i j : ℚ)) / 1000) 1 ≤ 1 :=
    min_le_right _ _
  have habs : |mean2q (fun i j => (grayFace face i j : ℚ)) - 128| ≤ 128 := by
    rw [abs_le]
    constructor <;> linarith
  have hb0 : 0 ≤ 1 - |mean2q (fun i j => (grayFace face i j : ℚ)) - 128| / 128 := by
    have : |mean2q (fun i j => (grayFace face i j : ℚ)) - 128| / 128 ≤ 1 := by
      rw [div_le_one (by norm_num)]
      exact habs
    linarith
  have hb1 : 1 - |mean2q (fun i j => (grayFace face i j : ℚ)) - 128| / 128 ≤ 1 := by
    have : 0 ≤ |mean2q (fun i j => (grayFace face i j : ℚ)) - 128| / 128 := by positivity
    linarith
  have hc0 : 0 ≤ min (ext.sqrtq (var2q (fun i j => (grayFace face i j : ℚ))) / 64) 1 :=
    le_min (by positivity) (by norm_num)
  have hc1 : min (ext.sqrtq (var2q (fun i j => (grayFace face i j : ℚ))) / 64) 1 ≤ 1 :=
    min_le_right _ _
  have hrange := weighted_score_range _ _ _ hs0 hs1 hb0 hb1 hc0 hc1
  refine ⟨?_, ?_, ?_⟩
  · simp only [assess_face_quality]
    ring
  · simpa only [assess_face_quality] using hrange.1
  · simpa only [assess_face_quality] using hrange.2

/-- C6 witness: the uniform mid-gray face under the concrete externals
(whose square-root stub is the constant 0, trivially nonnegative). -/
theorem assess_face_quality_formula_range_witness :
    0 ≤ assess_face_quality extW faceMid ∧ assess_face_quality extW faceMid ≤ 1 :=
  (assess_face_quality_formula_range extW faceMid
    (fun _ _ _ => by norm_num [faceMid]) (by norm_num [extW])).2

/-- C8 witness: a concrete detection list with a tie in area — the fold
returns an element satisfying the maximality and firstness properties. -/
theorem pickLargest_is_first_max_witness :
    ∃ i : ℕ, ∃ hi : i < (((0, 0, 2, 2) : FaceBox) :: [((5, 5, 2, 2) : FaceBox),
        ((0, 0, 1, 1) : FaceBox)]).length,
      ((((0, 0, 2, 2) : FaceBox)) :: [((5, 5, 2, 2) : FaceBox),
        ((0, 0, 1, 1) : FaceBox)]).get ⟨i, hi⟩ = pickLargest (0, 0, 2, 2)
          [(5, 5, 2, 2), (0, 0, 1, 1)] ∧
      (∀ j : ℕ, ∀ hj : j < (((0, 0, 2, 2) : FaceBox) :: [((5, 5, 2, 2) : FaceBox),
          ((0, 0, 1, 1) : FaceBox)]).length,
        area (((((0, 0, 2, 2) : FaceBox)) :: [((5, 5, 2, 2) : FaceBox),
          ((0, 0, 1, 1) : FaceBox)]).get ⟨j, hj⟩) ≤
          area (pickLargest (0, 0, 2, 2) [(5, 5, 2, 2), (0, 0, 1, 1)])) ∧
      (∀ j : ℕ, ∀ hj : j < (((0, 0, 2, 2) : FaceBox) :: [((5, 5, 2, 2) : FaceBox),
          ((0, 0, 1, 1) : FaceBox)]).length, j < i →
        area (((((0, 0, 2, 2) : FaceBox)) :: [((5, 5, 2, 2) : FaceBox),
          ((0, 0, 1, 1) : FaceBox)]).get ⟨j, hj⟩) <
          area (pickLargest (0, 0, 2, 2) [(5, 5, 2, 2), (0, 0, 1, 1)])) :=
  pickLargest_is_first_max (0, 0, 2, 2) [(5, 5, 2, 2), (0, 0, 1, 1)]

end FaceService
